import Mathlib

/-!
Verification development for the Letterboxd activity parser
(`parse_letterboxd.py`).  The HTML tokenizer is the Python standard
library; the parser logic is embedded at the level of the tag-event
callbacks `handle_starttag`, `handle_endtag` and `handle_data`, fed with
a list of events.  Machine floats only ever hold exact multiples of 0.5
here, so ratings are modelled as rationals.
-/

/-- One tokenizer event, as delivered by the HTML event stream to the
parser callbacks: an opening tag with its attribute list, a closing tag,
or a text chunk. -/
inductive Event where
  | startTag (tag : String) (attrs : List (String × String))
  | endTag (tag : String)
  | data (text : String)
deriving DecidableEq

/-- Model of building `dict(attrs)` and looking a key up: the last pair
with the key wins, absent key gives `none` (models `attrs_dict.get`). -/
def dictGet (attrs : List (String × String)) (k : String) : Option String :=
  attrs.foldl (fun acc p => if p.1 = k then some p.2 else acc) none

/-- Substring test on char lists (model of the Python `in` operator on
strings). -/
def containsSubList : List Char → List Char → Bool
  | l@(_ :: t), pat => pat.isPrefixOf l || containsSubList t pat
  | [], pat => pat.isEmpty

/-- Model of Python `pat in s` (substring containment). -/
def containsSub (s pat : String) : Bool :=
  containsSubList s.toList pat.toList

/-- Model of Python `s.startswith(pat)`. -/
def pyStartsWith (s pat : String) : Bool :=
  pat.toList.isPrefixOf s.toList

/-- Model of Python `str.strip()`: drop whitespace from both ends. -/
def pyStrip (s : String) : String :=
  String.mk (((s.toList.dropWhile Char.isWhitespace).reverse.dropWhile
    Char.isWhitespace).reverse)

/-- Numeric value of a list of decimal digit characters. -/
def natFromDigits (l : List Char) : ℕ :=
  l.foldl (fun a c => 10 * a + (c.toNat - 48)) 0

/-- Model of `re.search(r"rated-(\d+)", s)`: the value of the maximal
digit run after the leftmost occurrence of `rated-` that is followed by
at least one digit. -/
def findRated : List Char → Option ℕ
  | [] => none
  | l@(_ :: t) =>
    if ("rated-".toList).isPrefixOf l then
      let ds := (l.drop 6).takeWhile Char.isDigit
      if ds.isEmpty then findRated t else some (natFromDigits ds)
    else findRated t

/-- Model of `re.search(r"/films/year/(\d{4})/", s)`: the four digits of
the leftmost occurrence of the pattern. -/
def findYear : List Char → Option String
  | [] => none
  | l@(_ :: t) =>
    if ("/films/year/".toList).isPrefixOf l then
      match l.drop 12 with
      | a :: b :: c :: d :: e :: _ =>
        if a.isDigit && b.isDigit && c.isDigit && d.isDigit && e = '/' then
          some (String.mk [a, b, c, d])
        else findYear t
      | _ => findYear t
    else findYear t

/-- Model of `re.search(r"/film/([^/]+)/", s)`: the non-slash segment of
the leftmost occurrence of `/film/` that is followed by a nonempty
non-slash run and a further slash. -/
def findSlug : List Char → Option String
  | [] => none
  | l@(_ :: t) =>
    if ("/film/".toList).isPrefixOf l then
      let rest := l.drop 6
      let seg := rest.takeWhile (fun c => ¬ c = '/')
      if ¬ seg.isEmpty ∧ (rest.drop seg.length).head? = some '/' then
        some (String.mk seg)
      else findSlug t
    else findSlug t

/-- One activity record: the keys the parser may put into
`current_activity` (Python uses a dict; every key is optional). -/
structure ActivityRecord where
  title : Option String
  year : Option String
  slug : Option String
  url : Option String
  rating : Option ℚ
  rating_display : Option String
  review : Option String
  datetime : Option String
  date : Option String
  date_short : Option String
deriving DecidableEq

/-- The fresh accumulator `{}`. -/
def emptyActivity : ActivityRecord :=
  { title := none, year := none, slug := none, url := none, rating := none,
    rating_display := none, review := none, datetime := none, date := none,
    date_short := none }

/-- Truthiness of the accumulator dict: empty iff no key was ever set. -/
def ActivityRecord.isEmpty (r : ActivityRecord) : Bool :=
  r.title.isNone && r.year.isNone && r.slug.isNone && r.url.isNone &&
  r.rating.isNone && r.rating_display.isNone && r.review.isNone &&
  r.datetime.isNone && r.date.isNone && r.date_short.isNone

/-- The mutable state of `LetterboxdParser` (the unused `current_tag`
attribute of the source is omitted: it is written once and never read). -/
structure ParserState where
  activities : List ActivityRecord
  current_activity : ActivityRecord
  in_review : Bool
  in_review_body : Bool
  in_title : Bool
  in_rating : Bool
deriving DecidableEq

/-- Embedding of `LetterboxdParser.__init__`. -/
def initState : ParserState :=
  { activities := [], current_activity := emptyActivity, in_review := false,
    in_review_body := false, in_title := false, in_rating := false }

/-- Embedding of `handle_starttag`, activity-section branch (source lines 31-34). -/
def stepSection (tag : String) (attrs : List (String × String))
    (s : ParserState) : ParserState :=
  if tag = "section" then
    match dictGet attrs "class" with
    | some c =>
      if containsSub c "activity-row" then
        { s with current_activity := emptyActivity, in_review := true }
      else s
    | none => s
  else s

/-- Embedding of `handle_starttag`, movie-title branch (source lines 37-39). -/
def stepTitleOpen (tag : String) (attrs : List (String × String))
    (s : ParserState) : ParserState :=
  if tag = "h2" ∧ s.in_review then
    match dictGet attrs "class" with
    | some c => if containsSub c "name" then { s with in_title := true } else s
    | none => s
  else s

/-- Embedding of `handle_starttag`, release-year branch (source lines 42-45). -/
def stepYear (tag : String) (attrs : List (String × String))
    (s : ParserState) : ParserState :=
  if tag = "a" ∧ s.in_review ∧
      pyStartsWith ((dictGet attrs "href").getD "") "/films/year/" then
    match findYear ((dictGet attrs "href").getD "").toList with
    | some y =>
      { s with current_activity := { s.current_activity with year := some y } }
    | none => s
  else s

/-- Embedding of `handle_starttag`, rating branch (source lines 48-56): a span whose
class contains `rating` flips the cursor, and the first `rated-N` digit
run records `rating = N / 2.0` and the star glyph string
`'★' * int(stars) + ('½' if stars % 1 else '')`. -/
def stepRating (tag : String) (attrs : List (String × String))
    (s : ParserState) : ParserState :=
  if tag = "span" then
    match dictGet attrs "class" with
    | some c =>
      if containsSub c "rating" then
        let s1 := { s with in_rating := true }
        match findRated c.toList with
        | some n =>
          { s1 with current_activity :=
              { s1.current_activity with
                  rating := some ((n : ℚ) / 2),
                  rating_display := some (String.mk (List.replicate (n / 2) '★')
                    ++ (if n % 2 = 1 then "½" else "")) } }
        | none => s1
      else s
    | none => s
  else s

/-- Embedding of `handle_starttag`, review-body branch (source lines 59-60); note the
source does not require `in_review` here. -/
def stepReviewBody (tag : String) (attrs : List (String × String))
    (s : ParserState) : ParserState :=
  if tag = "div" then
    match dictGet attrs "class" with
    | some c =>
      if containsSub c "js-review-body" then { s with in_review_body := true }
      else s
    | none => s
  else s

/-- Embedding of `handle_starttag`, timestamp branch (source lines 63-64); independent
of every cursor. -/
def stepTime (tag : String) (attrs : List (String × String))
    (s : ParserState) : ParserState :=
  if tag = "time" then
    match dictGet attrs "datetime" with
    | some v =>
      { s with current_activity :=
          { s.current_activity with datetime := some v } }
    | none => s
  else s

/-- Embedding of `handle_starttag`, film link/slug branch (source lines 67-74). -/
def stepFilmLink (tag : String) (attrs : List (String × String))
    (s : ParserState) : ParserState :=
  if tag = "a" ∧ s.in_review then
    match dictGet attrs "href" with
    | some href =>
      if containsSub href "/film/" ∧ 3 ≤ href.toList.count '/' then
        match findSlug href.toList with
        | some sl =>
          { s with current_activity :=
              { s.current_activity with
                  slug := some sl,
                  url := some ("https://letterboxd.com" ++ href) } }
        | none => s
      else s
    | none => s
  else s

/-- Embedding of `LetterboxdParser.handle_starttag`: the six commented branches of the
source, applied in source order. -/
def handleStarttag (s : ParserState) (tag : String)
    (attrs : List (String × String)) : ParserState :=
  stepFilmLink tag attrs (stepTime tag attrs (stepReviewBody tag attrs
    (stepRating tag attrs (stepYear tag attrs (stepTitleOpen tag attrs
      (stepSection tag attrs s))))))

/-- Embedding of `handle_endtag`, emission check (source lines 78-79): a nonempty,
titled accumulator is appended (the list append snapshots its value). -/
def emitCurrent (s : ParserState) : ParserState :=
  if ¬ s.current_activity.isEmpty ∧ s.current_activity.title.isSome then
    { s with activities := s.activities ++ [s.current_activity] }
  else s

/-- Embedding of `handle_endtag`, section branch (source lines 77-82): run the
emission check, then clear the accumulator and reset `in_review` and
`in_review_body`.  The other two cursors are not touched here. -/
def endSectionStep (tag : String) (s : ParserState) : ParserState :=
  if tag = "section" then
    { emitCurrent s with
        current_activity := emptyActivity, in_review := false,
        in_review_body := false }
  else s

/-- Embedding of `handle_endtag`, h2 branch (source lines 84-85). -/
def endTitleStep (tag : String) (s : ParserState) : ParserState :=
  if tag = "h2" then { s with in_title := false } else s

/-- Embedding of `handle_endtag`, span branch (source lines 87-88). -/
def endSpanStep (tag : String) (s : ParserState) : ParserState :=
  if tag = "span" then { s with in_rating := false } else s

/-- Embedding of `LetterboxdParser.handle_endtag` (source lines 76-88). -/
def handleEndtag (s : ParserState) (tag : String) : ParserState :=
  endSpanStep tag (endTitleStep tag (endSectionStep tag s))

/-- Embedding of `handle_data`, title branch (source lines 96-98): record the first
non-verb chunk as the title while `in_title` is set; `d` is already
stripped and nonempty. -/
def dataTitleStep (d : String) (s : ParserState) : ParserState :=
  if s.in_title ∧ ¬ d = "watched" ∧ ¬ d = "rewatched" then
    if s.current_activity.title = none then
      { s with current_activity :=
          { s.current_activity with title := some d } }
    else s
  else s

/-- Embedding of `handle_data`, review branch (source lines 101-105): first chunk
starts the review, later chunks are appended behind one space. -/
def dataReviewStep (d : String) (s : ParserState) : ParserState :=
  if s.in_review_body then
    match s.current_activity.review with
    | none =>
      { s with current_activity :=
          { s.current_activity with review := some d } }
    | some r =>
      { s with current_activity :=
          { s.current_activity with review := some (r ++ " " ++ d) } }
  else s

/-- Embedding of `LetterboxdParser.handle_data` (source lines 90-105): strip the
chunk, ignore it when blank, then the title and review branches. -/
def handleData (s : ParserState) (text : String) : ParserState :=
  if pyStrip text = "" then s
  else dataReviewStep (pyStrip text) (dataTitleStep (pyStrip text) s)

/-- Dispatch one event to the matching callback. -/
def applyEvent (s : ParserState) : Event → ParserState
  | .startTag t a => handleStarttag s t a
  | .endTag t => handleEndtag s t
  | .data d => handleData s d

/-- Embedding of `parser.feed`: process the event stream left to right. -/
def feed (s : ParserState) (events : List Event) : ParserState :=
  events.foldl applyEvent s

/-- A calendar date, the part of a parsed timestamp that the date
formatting of `parse_letterboxd_html` uses. -/
structure PyDate where
  year : ℕ
  month : ℕ
  day : ℕ
deriving DecidableEq

/-- Gregorian leap year test. -/
def isLeapYear (y : ℕ) : Bool :=
  (y % 4 = 0 && ¬ y % 100 = 0) || y % 400 = 0

/-- Days in a month. -/
def daysInMonth (y m : ℕ) : ℕ :=
  if m = 2 then (if isLeapYear y then 29 else 28)
  else if m = 4 ∨ m = 6 ∨ m = 9 ∨ m = 11 then 30 else 31

/-- Read exactly `k` decimal digits, returning their value and the rest. -/
def readDigits (k : ℕ) (l : List Char) : Option (ℕ × List Char) :=
  let ds := l.take k
  if ds.length = k ∧ ds.all Char.isDigit then some (natFromDigits ds, l.drop k)
  else none

/-- Consume one expected character. -/
def expectChar (c : Char) : List Char → Option (List Char)
  | [] => none
  | x :: xs => if x = c then some xs else none

/-- Model of the stdlib `HH[:MM[:SS[.fff[fff]]]]` time parser (shared by
the time-of-day part and the offset part of `datetime.fromisoformat`):
returns hour, minute, second and the unconsumed rest, without range
validation. -/
def parseHMS (l : List Char) : Option (ℕ × ℕ × ℕ × List Char) :=
  match readDigits 2 l with
  | none => none
  | some (hh, r1) =>
    match expectChar ':' r1 with
    | none => some (hh, 0, 0, r1)
    | some r2 =>
      match readDigits 2 r2 with
      | none => none
      | some (mm, r3) =>
        match expectChar ':' r3 with
        | none => some (hh, mm, 0, r3)
        | some r4 =>
          match readDigits 2 r4 with
          | none => none
          | some (ss, r5) =>
            match expectChar '.' r5 with
            | none => some (hh, mm, ss, r5)
            | some r6 =>
              let ds := r6.takeWhile Char.isDigit
              if ds.length = 3 ∨ ds.length = 6 then
                some (hh, mm, ss, r6.drop ds.length)
              else none

/-- Validity of the `HH:MM[:SS[.ffffff]]` body of a UTC offset: the
offset must be strictly below 24 hours. -/
def offsetFieldsOk (rest : List Char) : Bool :=
  match readDigits 2 rest with
  | none => false
  | some (oh, r1) =>
    match expectChar ':' r1 with
    | none => false
    | some r2 =>
      match readDigits 2 r2 with
      | none => false
      | some (om, r3) =>
        match r3 with
        | [] => decide (oh * 3600 + om * 60 < 86400)
        | ':' :: r4 =>
          match readDigits 2 r4 with
          | none => false
          | some (os, r5) =>
            match r5 with
            | [] => decide (oh * 3600 + om * 60 + os < 86400)
            | '.' :: r6 =>
              (r6.length = 6 && r6.all Char.isDigit) &&
                decide (oh * 3600 + om * 60 + os < 86400)
            | _ => false
        | _ => false

/-- Validity of the optional trailing UTC offset. -/
def parseOffsetOk (l : List Char) : Bool :=
  match l with
  | [] => true
  | '+' :: rest => offsetFieldsOk rest
  | '-' :: rest => offsetFieldsOk rest
  | _ => false

/-- Modelled from the spec and the stdlib contract: the strict
`datetime.fromisoformat` format
`YYYY-MM-DD[*HH[:MM[:SS[.fff[fff]]]][+HH:MM[:SS[.ffffff]]]]` (the
separator is one arbitrary character), validating field ranges, and
returning the calendar-date part on success.  The stdlib call is an
external collaborator of the repository, not code under src/. -/
def fromISO (s : String) : Option PyDate :=
  match readDigits 4 s.toList with
  | none => none
  | some (y, r1) =>
    match expectChar '-' r1 with
    | none => none
    | some r2 =>
      match readDigits 2 r2 with
      | none => none
      | some (mo, r3) =>
        match expectChar '-' r3 with
        | none => none
        | some r4 =>
          match readDigits 2 r4 with
          | none => none
          | some (d, r5) =>
            if 1 ≤ y ∧ y ≤ 9999 ∧ 1 ≤ mo ∧ mo ≤ 12 ∧ 1 ≤ d ∧
                d ≤ daysInMonth y mo then
              match r5 with
              | [] => some { year := y, month := mo, day := d }
              | _sep :: r6 =>
                match parseHMS r6 with
                | none => none
                | some (hh, mm, ss, r7) =>
                  if hh ≤ 23 ∧ mm ≤ 59 ∧ ss ≤ 59 ∧ parseOffsetOk r7 = true
                  then some { year := y, month := mo, day := d }
                  else none
            else none

/-- Model of Python `s.replace("Z", "+00:00")` on char lists. -/
def replaceZList : List Char → List Char
  | [] => []
  | c :: cs =>
    if c = 'Z' then '+' :: '0' :: '0' :: ':' :: '0' :: '0' :: replaceZList cs
    else c :: replaceZList cs

/-- Model of `activity["datetime"].replace("Z", "+00:00")`. -/
def pyReplaceZ (s : String) : String :=
  String.mk (replaceZList s.toList)

/-- Abbreviated month name as produced by C-locale `strftime %b`. -/
def monthAbbr (m : ℕ) : String :=
  (["Jan", "Feb", "Mar", "Apr", "May", "Jun", "Jul", "Aug", "Sep", "Oct",
    "Nov", "Dec"]).getD (m - 1) ""

/-- Zero-padded two-digit number, as `strftime %d`. -/
def pad2 (n : ℕ) : String :=
  if n < 10 then "0" ++ toString n else toString n

/-- Zero-padded four-digit year, as `strftime %Y`. -/
def pad4 (n : ℕ) : String :=
  if n < 10 then "000" ++ toString n
  else if n < 100 then "00" ++ toString n
  else if n < 1000 then "0" ++ toString n
  else toString n

/-- Embedding of `dt.strftime("%b %d, %Y")`. -/
def fmtLong (dt : PyDate) : String :=
  monthAbbr dt.month ++ " " ++ pad2 dt.day ++ ", " ++ pad4 dt.year

/-- Embedding of `dt.strftime("%b %d")`. -/
def fmtShort (dt : PyDate) : String :=
  monthAbbr dt.month ++ " " ++ pad2 dt.day

/-- Python whitespace class for the regex escapes in the cleanup step. -/
def dropWS (l : List Char) : List Char :=
  l.dropWhile Char.isWhitespace

/-- Whether `\s*Translate\s*Translated from.*$` matches at this exact
position: a maximal whitespace run, the literal `Translate`, a maximal
whitespace run, the literal `Translated from`, then the rest of the
final line (the backslash-escaped classes cannot backtrack into the
literals, and the dollar anchors at the end of the string or just
before one final newline).  Returns the characters the match leaves in
place, or `none` when there is no match here. -/
def matchTransA (l : List Char) : Option (List Char) :=
  let l1 := dropWS l
  if ("Translate".toList).isPrefixOf l1 then
    let l2 := dropWS (l1.drop 9)
    if ("Translated from".toList).isPrefixOf l2 then
      let l3 := l2.drop 15
      if ¬ l3.contains '\n' then some []
      else if l3.getLast? = some '\n' ∧ ¬ (l3.dropLast.contains '\n') then
        some ['\n']
      else none
    else none
  else none

/-- Embedding of `re.sub(r"\s*Translate\s*Translated from.*$", "", review)`: remove
the leftmost match (a successful match always runs to the end of the
string, up to one kept final newline, so there is at most one). -/
def subTransA : List Char → List Char
  | [] => []
  | c :: cs =>
    match matchTransA (c :: cs) with
    | some keep => keep
    | none => c :: subTransA cs

/-- Whether `\s*Translate\s*$` matches at this exact position: maximal
whitespace, the literal `Translate`, then only whitespace to the end
(the greedy tail consumes any final newline before the dollar). -/
def matchTransB (l : List Char) : Bool :=
  let l1 := dropWS l
  ("Translate".toList).isPrefixOf l1 && ((l1.drop 9).all Char.isWhitespace)

/-- Embedding of `re.sub(r"\s*Translate\s*$", "", review)`: remove the leftmost
match, which always runs to the end of the string. -/
def subTransB : List Char → List Char
  | [] => []
  | c :: cs => if matchTransB (c :: cs) then [] else c :: subTransB cs

/-- The review cleanup of `parse_letterboxd_html` (source lines 127-133):
the two translation-UI substitutions followed by `strip()`. -/
def cleanReview (r : String) : String :=
  pyStrip (String.mk (subTransB (subTransA r.toList)))

/-- The per-record post-processing of `parse_letterboxd_html` (source
lines 118-133): derive `date`/`date_short` from `datetime` when the
timestamp parses (the bare `except` swallows a failure), then clean the
review text. -/
def postprocessActivity (a : ActivityRecord) : ActivityRecord :=
  let a1 :=
    match a.datetime with
    | some sdt =>
      match fromISO (pyReplaceZ sdt) with
      | some dt =>
        { a with date := some (fmtLong dt), date_short := some (fmtShort dt) }
      | none => a
    | none => a
  match a1.review with
  | some r => { a1 with review := some (cleanReview r) }
  | none => a1

/-- Embedding of `parse_letterboxd_html` (source lines 108-137): feed a fresh parser,
then post-process and keep exactly the accumulated records that carry a
title. -/
def parseLetterboxdHtml (events : List Event) : List ActivityRecord :=
  let parser := feed initState events
  parser.activities.foldl
    (fun acc a => if a.title.isSome then acc ++ [postprocessActivity a] else acc)
    []

/-- One entry of the `movies` list of `format_for_trmnl`: every field
coerced to a default. -/
structure MovieData where
  title : String
  year : String
  rating : ℚ
  rating_display : String
  review : String
  date : String
  date_short : String
  url : String
deriving DecidableEq

/-- The flattened `latest_*` keys of the envelope. -/
structure LatestData where
  title : String
  year : String
  rating : String
  review : String
  date : String
deriving DecidableEq

/-- The `merge_variables` object built by `format_for_trmnl`; the
optional `latest_*` keys are grouped into one optional component. -/
structure Envelope where
  user : String
  update_time : String
  movies : List MovieData
  total_activities : ℕ
  latest : Option LatestData
deriving DecidableEq

/-- The per-record coercion inside the `for activity in recent` loop of
`format_for_trmnl` (source lines 153-164). -/
def movieData (a : ActivityRecord) : MovieData :=
  { title := a.title.getD "", year := a.year.getD "",
    rating := a.rating.getD 0, rating_display := a.rating_display.getD "",
    review := a.review.getD "", date := a.date.getD "",
    date_short := a.date_short.getD "", url := a.url.getD "" }

/-- Embedding of `format_for_trmnl` (source lines 140-178).  The wall-clock string
`datetime.now().strftime(...)` is an input of the model. -/
def formatForTrmnl (now : String) (activities : List ActivityRecord)
    (limit : ℕ) : Envelope :=
  let recent := activities.take limit
  { user := "NicoleP",
    update_time := now,
    movies := recent.foldl (fun acc a => acc ++ [movieData a]) [],
    total_activities := recent.length,
    latest :=
      match recent with
      | [] => none
      | a :: _ =>
        some { title := a.title.getD "", year := a.year.getD "",
               rating := a.rating_display.getD "", review := a.review.getD "",
               date := a.date.getD "" } }

/-- Bool test: is this event a close of the activity-block container tag. -/
def isSectionEnd : Event → Bool
  | .endTag t => t = "section"
  | _ => false

/-- Bool test: is this event an activity-block opening, by the source
condition of lines 31-32. -/
def isActivityRowOpen : Event → Bool
  | .startTag t attrs =>
    t = "section" &&
      (match dictGet attrs "class" with
       | some c => containsSub c "activity-row"
       | none => false)
  | _ => false

/-- Number of close events of the container tag in a stream. -/
def countSectionEnds (events : List Event) : ℕ :=
  events.countP isSectionEnd

/-- Number of activity-block openings in a stream. -/
def countActivityRowOpens (events : List Event) : ℕ :=
  events.countP isActivityRowOpen

/-- An activity block whose rating badge carries class
`rating rated-N`. -/
def ratedStream (n : ℕ) : List Event :=
  [ .startTag "section" [("class", "activity-row")],
    .startTag "h2" [("class", "name")],
    .data "T",
    .endTag "h2",
    .startTag "span" [("class", "rating rated-" ++ toString n)],
    .endTag "span",
    .endTag "section" ]

/-- A stream with one activity-block opening whose title heading never
closes, followed by stray text and one more section close. -/
def titleLeakStream : List Event :=
  [ .startTag "section" [("class", "activity-row")],
    .startTag "h2" [("class", "name")],
    .data "A",
    .endTag "section",
    .data "B",
    .endTag "section" ]

/-- An activity block whose review body is a bare watched-date stub. -/
def watchedStubStream : List Event :=
  [ .startTag "section" [("class", "activity-row")],
    .startTag "h2" [("class", "name")],
    .data "T",
    .endTag "h2",
    .startTag "div" [("class", "body-text js-review-body")],
    .data "Watched on Jan 01, 2024",
    .endTag "section" ]

/-- An activity block closed while its title heading is still open. -/
def unclosedTitleStream : List Event :=
  [ .startTag "section" [("class", "activity-row")],
    .startTag "h2" [("class", "name")],
    .data "T",
    .endTag "section" ]

/-- An activity block with a title and a timestamp. -/
def datedStream : List Event :=
  [ .startTag "section" [("class", "activity-row")],
    .startTag "h2" [("class", "name")],
    .data "T",
    .endTag "h2",
    .startTag "time" [("datetime", "2024-12-25T10:00:00")],
    .endTag "section" ]

/-- An activity block with two title text chunks and two timestamp
tags. -/
def twoTimesStream : List Event :=
  [ .startTag "section" [("class", "activity-row")],
    .startTag "h2" [("class", "name")],
    .data "First",
    .data "Second",
    .endTag "h2",
    .startTag "time" [("datetime", "2024-01-01T00:00:00")],
    .startTag "time" [("datetime", "2024-02-02T00:00:00")],
    .endTag "section" ]

/-- An activity block containing a nested non-activity section element
whose close precedes a timestamp tag. -/
def nestedSectionStream : List Event :=
  [ .startTag "section" [("class", "activity-row")],
    .startTag "h2" [("class", "name")],
    .data "Outer",
    .endTag "h2",
    .startTag "section" [("class", "inner")],
    .endTag "section",
    .startTag "time" [("datetime", "2024-01-01T00:00:00")],
    .endTag "section" ]

/-- A bare titled record, input for the formatter counterexample. -/
def titledOnlyRecord : ActivityRecord :=
  { emptyActivity with title := some "A" }

/-- The record that `parseLetterboxdHtml` emits for `datedStream`. -/
def datedRecord : ActivityRecord :=
  { emptyActivity with
      title := some "T", datetime := some "2024-12-25T10:00:00",
      date := some "Dec 25, 2024", date_short := some "Dec 25" }

/-- The record that `parseLetterboxdHtml` emits for `ratedStream 11`. -/
def rated11Record : ActivityRecord :=
  { emptyActivity with
      title := some "T", rating := some (((11 : ℕ) : ℚ) / 2),
      rating_display := some "★★★★★½" }

/-- A parser state inside a review body with an empty accumulator. -/
def reviewBodyState : ParserState :=
  { initState with in_review := true, in_review_body := true }

/-- A parser state whose accumulator already holds a title. -/
def titledState : ParserState :=
  { initState with
      in_review := true, in_title := true,
      current_activity := { emptyActivity with title := some "A" } }

/-- Record invariant maintained by the parser: a recorded title is
nonempty, the derived date fields are never set before post-processing,
and every recorded rating is half of a natural number. -/
def recOk (r : ActivityRecord) : Prop :=
  (∀ t, r.title = some t → ¬ t = "") ∧ r.date = none ∧ r.date_short = none ∧
  (∀ q, r.rating = some q → ∃ m : ℕ, q = (m : ℚ) / 2)

/-- State invariant: every accumulated record is well formed and titled,
and the accumulator is well formed. -/
def stateOk (s : ParserState) : Prop :=
  (∀ r ∈ s.activities, recOk r ∧ r.title.isSome = true) ∧
  recOk s.current_activity

theorem recOk_empty : recOk emptyActivity := by
  refine ⟨?_, rfl, rfl, ?_⟩ <;> intro x hx <;> simp [emptyActivity] at hx

theorem recOk_setTitle (r : ActivityRecord) (d : String) (hd : ¬ d = "")
    (h : recOk r) : recOk { r with title := some d } :=
  ⟨fun t ht => (Option.some.inj ht) ▸ hd, h.2.1, h.2.2.1, h.2.2.2⟩

theorem recOk_setReview (r : ActivityRecord) (v : Option String)
    (h : recOk r) : recOk { r with review := v } :=
  ⟨h.1, h.2.1, h.2.2.1, h.2.2.2⟩

theorem initState_ok : stateOk initState :=
  ⟨fun r hr => absurd hr (List.not_mem_nil r), recOk_empty⟩

theorem stepSection_ok (t : String) (a : List (String × String))
    (s : ParserState) (h : stateOk s) : stateOk (stepSection t a s) := by
  unfold stepSection
  repeat' split
  all_goals first
    | exact h
    | exact ⟨h.1, recOk_empty⟩

theorem stepTitleOpen_ok (t : String) (a : List (String × String))
    (s : ParserState) (h : stateOk s) : stateOk (stepTitleOpen t a s) := by
  unfold stepTitleOpen
  repeat' split
  all_goals exact h

theorem stepYear_ok (t : String) (a : List (String × String))
    (s : ParserState) (h : stateOk s) : stateOk (stepYear t a s) := by
  unfold stepYear
  repeat' split
  all_goals exact h

theorem stepRating_ok (t : String) (a : List (String × String))
    (s : ParserState) (h : stateOk s) : stateOk (stepRating t a s) := by
  unfold stepRating
  repeat' split
  all_goals first
    | exact h
    | exact ⟨h.1, h.2.1, h.2.2.1, h.2.2.2.1,
        fun q hq => ⟨_, (Option.some.inj hq).symm⟩⟩

theorem stepReviewBody_ok (t : String) (a : List (String × String))
    (s : ParserState) (h : stateOk s) : stateOk (stepReviewBody t a s) := by
  unfold stepReviewBody
  repeat' split
  all_goals exact h

theorem stepTime_ok (t : String) (a : List (String × String))
    (s : ParserState) (h : stateOk s) : stateOk (stepTime t a s) := by
  unfold stepTime
  repeat' split
  all_goals exact h

theorem stepFilmLink_ok (t : String) (a : List (String × String))
    (s : ParserState) (h : stateOk s) : stateOk (stepFilmLink t a s) := by
  unfold stepFilmLink
  repeat' split
  all_goals exact h

theorem handleStarttag_ok (s : ParserState) (t : String)
    (a : List (String × String)) (h : stateOk s) :
    stateOk (handleStarttag s t a) :=
  stepFilmLink_ok _ _ _ (stepTime_ok _ _ _ (stepReviewBody_ok _ _ _
    (stepRating_ok _ _ _ (stepYear_ok _ _ _ (stepTitleOpen_ok _ _ _
      (stepSection_ok _ _ _ h))))))

theorem emitCurrent_ok (s : ParserState) (h : stateOk s) :
    stateOk (emitCurrent s) := by
  unfold emitCurrent
  split
  next hc =>
    refine ⟨?_, h.2⟩
    intro r hr
    rcases List.mem_append.mp hr with hr1 | hr2
    · exact h.1 r hr1
    · have heq := List.mem_singleton.mp hr2
      subst heq
      exact ⟨h.2, hc.2⟩
  next => exact h

theorem endSectionStep_ok (t : String) (s : ParserState) (h : stateOk s) :
    stateOk (endSectionStep t s) := by
  unfold endSectionStep
  split
  · exact ⟨(emitCurrent_ok s h).1, recOk_empty⟩
  · exact h

theorem endTitleStep_ok (t : String) (s : ParserState) (h : stateOk s) :
    stateOk (endTitleStep t s) := by
  unfold endTitleStep
  split
  all_goals exact h

theorem endSpanStep_ok (t : String) (s : ParserState) (h : stateOk s) :
    stateOk (endSpanStep t s) := by
  unfold endSpanStep
  split
  all_goals exact h

theorem handleEndtag_ok (s : ParserState) (t : String) (h : stateOk s) :
    stateOk (handleEndtag s t) :=
  endSpanStep_ok _ _ (endTitleStep_ok _ _ (endSectionStep_ok _ _ h))

theorem dataTitleStep_ok (d : String) (s : ParserState) (hd : ¬ d = "")
    (h : stateOk s) : stateOk (dataTitleStep d s) := by
  unfold dataTitleStep
  repeat' split
  all_goals first
    | exact h
    | exact ⟨h.1, recOk_setTitle _ _ hd h.2⟩

theorem dataReviewStep_ok (d : String) (s : ParserState) (h : stateOk s) :
    stateOk (dataReviewStep d s) := by
  unfold dataReviewStep
  repeat' split
  all_goals exact h

theorem handleData_ok (s : ParserState) (text : String) (h : stateOk s) :
    stateOk (handleData s text) := by
  unfold handleData
  split
  · exact h
  next hne => exact dataReviewStep_ok _ _ (dataTitleStep_ok _ _ hne h)

theorem applyEvent_ok (s : ParserState) (e : Event) (h : stateOk s) :
    stateOk (applyEvent s e) := by
  cases e with
  | startTag t a => exact handleStarttag_ok s t a h
  | endTag t => exact handleEndtag_ok s t h
  | data d => exact handleData_ok s d h

theorem feed_ok (events : List Event) :
    ∀ s : ParserState, stateOk s → stateOk (feed s events) := by
  induction events with
  | nil => exact fun s h => h
  | cons e es ih => exact fun s h => ih _ (applyEvent_ok s e h)

theorem stepSection_activities (t : String) (a : List (String × String))
    (s : ParserState) : (stepSection t a s).activities = s.activities := by
  unfold stepSection
  repeat' split
  all_goals rfl

theorem stepTitleOpen_activities (t : String) (a : List (String × String))
    (s : ParserState) : (stepTitleOpen t a s).activities = s.activities := by
  unfold stepTitleOpen
  repeat' split
  all_goals rfl

theorem stepYear_activities (t : String) (a : List (String × String))
    (s : ParserState) : (stepYear t a s).activities = s.activities := by
  unfold stepYear
  repeat' split
  all_goals rfl

theorem stepRating_activities (t : String) (a : List (String × String))
    (s : ParserState) : (stepRating t a s).activities = s.activities := by
  unfold stepRating
  repeat' split
  all_goals rfl

theorem stepReviewBody_activities (t : String) (a : List (String × String))
    (s : ParserState) : (stepReviewBody t a s).activities = s.activities := by
  unfold stepReviewBody
  repeat' split
  all_goals rfl

theorem stepTime_activities (t : String) (a : List (String × String))
    (s : ParserState) : (stepTime t a s).activities = s.activities := by
  unfold stepTime
  repeat' split
  all_goals rfl

theorem stepFilmLink_activities (t : String) (a : List (String × String))
    (s : ParserState) : (stepFilmLink t a s).activities = s.activities := by
  unfold stepFilmLink
  repeat' split
  all_goals rfl

theorem handleStarttag_activities (s : ParserState) (t : String)
    (a : List (String × String)) :
    (handleStarttag s t a).activities = s.activities := by
  unfold handleStarttag
  rw [stepFilmLink_activities, stepTime_activities, stepReviewBody_activities,
    stepRating_activities, stepYear_activities, stepTitleOpen_activities,
    stepSection_activities]

theorem dataTitleStep_activities (d : String) (s : ParserState) :
    (dataTitleStep d s).activities = s.activities := by
  unfold dataTitleStep
  repeat' split
  all_goals rfl

theorem dataReviewStep_activities (d : String) (s : ParserState) :
    (dataReviewStep d s).activities = s.activities := by
  unfold dataReviewStep
  repeat' split
  all_goals rfl

theorem handleData_activities (s : ParserState) (text : String) :
    (handleData s text).activities = s.activities := by
  unfold handleData
  split
  · rfl
  · rw [dataReviewStep_activities, dataTitleStep_activities]

theorem endTitleStep_activities (t : String) (s : ParserState) :
    (endTitleStep t s).activities = s.activities := by
  unfold endTitleStep
  split
  all_goals rfl

theorem endSpanStep_activities (t : String) (s : ParserState) :
    (endSpanStep t s).activities = s.activities := by
  unfold endSpanStep
  split
  all_goals rfl

theorem emitCurrent_len (s : ParserState) :
    (emitCurrent s).activities.length ≤ s.activities.length + 1 := by
  unfold emitCurrent
  split
  · simp
  · simp

theorem handleEndtag_len (s : ParserState) (t : String) :
    (handleEndtag s t).activities.length ≤
      s.activities.length + (if t = "section" then 1 else 0) := by
  unfold handleEndtag
  rw [endSpanStep_activities, endTitleStep_activities]
  unfold endSectionStep
  split
  next hsec => simpa [hsec] using emitCurrent_len s
  next hsec => simp [hsec]

theorem applyEvent_len (s : ParserState) (e : Event) :
    (applyEvent s e).activities.length ≤
      s.activities.length + (if isSectionEnd e = true then 1 else 0) := by
  cases e with
  | startTag t a => simp [applyEvent, handleStarttag_activities]
  | data d => simp [applyEvent, handleData_activities]
  | endTag t =>
    have h := handleEndtag_len s t
    simpa [applyEvent, isSectionEnd] using h

theorem feed_len (events : List Event) :
    ∀ s : ParserState, (feed s events).activities.length ≤
      s.activities.length + countSectionEnds events := by
  induction events with
  | nil => intro s; simp [feed, countSectionEnds]
  | cons e es ih =>
    intro s
    have h2 := ih (applyEvent s e)
    have h3 := applyEvent_len s e
    have h1 : feed s (e :: es) = feed (applyEvent s e) es := rfl
    rw [h1]
    simp only [countSectionEnds, List.countP_cons] at h2 ⊢
    by_cases hse : isSectionEnd e = true <;> simp [hse] at h3 ⊢ <;> omega

theorem emit_foldl (l : List ActivityRecord) :
    ∀ acc : List ActivityRecord, (∀ r ∈ l, r.title.isSome = true) →
      l.foldl (fun acc a =>
          if a.title.isSome then acc ++ [postprocessActivity a] else acc) acc
        = acc ++ l.map postprocessActivity := by
  induction l with
  | nil => intro acc h; simp
  | cons a l ih =>
    intro acc h
    have ha : a.title.isSome = true := h a (List.mem_cons_self a l)
    have hl : ∀ r ∈ l, r.title.isSome = true :=
      fun r hr => h r (List.mem_cons_of_mem a hr)
    simp only [List.foldl_cons, List.map_cons]
    rw [if_pos ha, ih _ hl]
    simp

theorem parse_eq_map (events : List Event) :
    parseLetterboxdHtml events =
      ((feed initState events).activities).map postprocessActivity := by
  have hok := feed_ok events initState initState_ok
  have ht : ∀ r ∈ (feed initState events).activities, r.title.isSome = true :=
    fun r hr => (hok.1 r hr).2
  unfold parseLetterboxdHtml
  simpa using emit_foldl _ [] ht

theorem post_fields (a : ActivityRecord) :
    (postprocessActivity a).title = a.title ∧
    (postprocessActivity a).year = a.year ∧
    (postprocessActivity a).rating = a.rating ∧
    (postprocessActivity a).rating_display = a.rating_display ∧
    (postprocessActivity a).datetime = a.datetime ∧
    (postprocessActivity a).review = a.review.map cleanReview := by
  unfold postprocessActivity
  cases hdt : a.datetime with
  | none => cases hr : a.review <;> simp [hdt, hr]
  | some sdt =>
    cases hiso : fromISO (pyReplaceZ sdt) <;> cases hr : a.review <;>
      simp [hdt, hiso, hr]

theorem post_date (a : ActivityRecord) (h : recOk a) :
    ((postprocessActivity a).date, (postprocessActivity a).date_short) =
      (match a.datetime with
       | some sdt =>
         (match fromISO (pyReplaceZ sdt) with
          | some dt => (some (fmtLong dt), some (fmtShort dt))
          | none => ((none : Option String), (none : Option String)))
       | none => ((none : Option String), (none : Option String))) := by
  unfold postprocessActivity
  cases hdt : a.datetime with
  | none => cases hr : a.review <;> simp [hdt, hr, h.2.1, h.2.2.1]
  | some sdt =>
    cases hiso : fromISO (pyReplaceZ sdt) <;> cases hr : a.review <;>
      simp [hdt, hiso, hr, h.2.1, h.2.2.1]

theorem movies_foldl (l : List ActivityRecord) :
    ∀ acc : List MovieData,
      l.foldl (fun acc a => acc ++ [movieData a]) acc = acc ++ l.map movieData := by
  induction l with
  | nil => intro acc; simp
  | cons a l ih => intro acc; simp [List.foldl_cons, ih]

theorem floor_half_toNat (n : ℕ) : (⌊((n : ℕ) : ℚ) / 2⌋).toNat = n / 2 := by
  have h2 : ((2 : ℚ)) = ((2 : ℕ) : ℚ) := by norm_num
  rw [Int.floor_toNat, h2, Nat.floor_div_nat, Nat.floor_natCast]

/-- C1: for every integer N in 1-10, an activity block whose rating
badge class contains rated-N yields a record with rating N/2.0 and a
display of floor(rating) full-star glyphs followed by one half-star
glyph exactly when N is odd. -/
theorem c1_rated_badge (n : ℕ) (h1 : 1 ≤ n) (h2 : n ≤ 10) :
    parseLetterboxdHtml (ratedStream n) =
      [{ title := some "T", year := none, slug := none, url := none,
         rating := some (((n : ℕ) : ℚ) / 2),
         rating_display :=
           some (String.mk (List.replicate (⌊((n : ℕ) : ℚ) / 2⌋).toNat '★')
             ++ (if n % 2 = 1 then "½" else "")),
         review := none, datetime := none, date := none,
         date_short := none }] := by
  rw [floor_half_toNat n]
  interval_cases n <;> rfl

/-- C1 witness: the badge theorem instantiated at N = 9, giving rating
4.5 and four and a half stars. -/
theorem c1_rated_badge_witness :
    parseLetterboxdHtml (ratedStream 9) =
      [{ title := some "T", year := none, slug := none, url := none,
         rating := some (((9 : ℕ) : ℚ) / 2),
         rating_display :=
           some (String.mk (List.replicate (⌊((9 : ℕ) : ℚ) / 2⌋).toNat '★')
             ++ (if 9 % 2 = 1 then "½" else "")),
         review := none, datetime := none, date := none,
         date_short := none }] :=
  c1_rated_badge 9 (by norm_num) (by norm_num)

/-- C2 (amended): every emitted record carries a nonempty title, and the
output length is bounded by the number of section close events; the
bound by activity-block openings claimed by the spec fails because the
title cursor survives a block close. -/
theorem c2_titles_and_bound (events : List Event) :
    (∀ r ∈ parseLetterboxdHtml events, ∃ t, r.title = some t ∧ ¬ t = "") ∧
    (parseLetterboxdHtml events).length ≤ countSectionEnds events := by
  constructor
  · intro r hr
    rw [parse_eq_map] at hr
    rcases List.mem_map.mp hr with ⟨a, ha, rfl⟩
    have hok := feed_ok events initState initState_ok
    have h1 := (hok.1 a ha).1
    have h2 := (hok.1 a ha).2
    rcases Option.isSome_iff_exists.mp h2 with ⟨t, ht⟩
    refine ⟨t, ?_, h1.1 t ht⟩
    rw [(post_fields a).1, ht]
  · rw [parse_eq_map, List.length_map]
    simpa [initState] using feed_len events initState

/-- C2 counterexample: one activity-block opening produces two emitted
records, because the unclosed title heading lets stray text after the
block close seed a second titled accumulator. -/
theorem c2_counterexample :
    countActivityRowOpens titleLeakStream = 1 ∧
    (parseLetterboxdHtml titleLeakStream).length = 2 := by
  constructor <;> decide

/-- C2 witness: the nonempty-title part applied to the first record of
the title-leak stream. -/
theorem c2_titles_and_bound_witness :
    ∃ t, titledOnlyRecord.title = some t ∧ ¬ t = "" :=
  (c2_titles_and_bound titleLeakStream).1 titledOnlyRecord (by decide)

/-- C3 (amended): the envelope movies are the first limit records
coerced in order, total_activities is min(limit, length), and the
latest fields are present if and only if movies is nonempty — not if
and only if the input is nonempty — copying the corresponding fields of
the first movie. -/
theorem c3_envelope (now : String) (records : List ActivityRecord)
    (limit : ℕ) :
    (formatForTrmnl now records limit).movies =
      (records.take limit).map movieData ∧
    (formatForTrmnl now records limit).total_activities =
      min limit records.length ∧
    (formatForTrmnl now records limit).latest =
      ((formatForTrmnl now records limit).movies.head?).map
        (fun m => { title := m.title, year := m.year,
                    rating := m.rating_display, review := m.review,
                    date := m.date }) := by
  refine ⟨?_, ?_, ?_⟩
  · simp [formatForTrmnl, movies_foldl]
  · simp [formatForTrmnl, List.length_take]
  · cases hrec : records.take limit with
    | nil => simp [formatForTrmnl, hrec, movies_foldl]
    | cons a l =>
      simp only [formatForTrmnl, hrec, movies_foldl]
      simp [movieData]

/-- C3 counterexample: a nonempty input with limit 0 omits every latest
key and has total_activities 0, refuting presence iff the input is
nonempty. -/
theorem c3_counterexample :
    ¬ ([titledOnlyRecord] = ([] : List ActivityRecord)) ∧
    (formatForTrmnl "Jan 01, 2024 00:00 AM" [titledOnlyRecord] 0).latest =
      none ∧
    (formatForTrmnl "Jan 01, 2024 00:00 AM"
      [titledOnlyRecord] 0).total_activities = 0 := by
  refine ⟨by decide, by decide, by decide⟩

/-- C4 (amended): every rating the extractor records is half of a
natural number, hence nonnegative with step 0.5, but out-of-pattern
values are not ignored: a rated-11 badge records 5.5, above the claimed
upper bound of 5.0. -/
theorem c4_rating_values :
    (∀ (events : List Event) (r : ActivityRecord),
      r ∈ parseLetterboxdHtml events →
      ∀ q : ℚ, r.rating = some q → ∃ m : ℕ, q = (m : ℚ) / 2) ∧
    (parseLetterboxdHtml (ratedStream 11)).map (fun r => r.rating) =
      [some (((11 : ℕ) : ℚ) / 2)] ∧
    ¬ (((11 : ℕ) : ℚ) / 2 ≤ 5) := by
  refine ⟨?_, rfl, by norm_num⟩
  intro events r hr q hq
  rw [parse_eq_map] at hr
  rcases List.mem_map.mp hr with ⟨a, ha, rfl⟩
  have hok := feed_ok events initState initState_ok
  have h1 := (hok.1 a ha).1
  rw [(post_fields a).2.2.1] at hq
  exact h1.2.2.2 q hq

/-- C4 counterexample: a badge with class rating rated-11 records
rating 5.5 instead of recording no rating, violating the [0, 5] bound. -/
theorem c4_counterexample :
    (parseLetterboxdHtml (ratedStream 11)).map (fun r => r.rating) =
      [some (((11 : ℕ) : ℚ) / 2)] ∧
    ¬ (((11 : ℕ) : ℚ) / 2 ≤ 5) :=
  ⟨rfl, by norm_num⟩

/-- C4 witness: the half-step fact applied to the rated-11 record. -/
theorem c4_rating_values_witness :
    ∃ m : ℕ, ((11 : ℕ) : ℚ) / 2 = (m : ℚ) / 2 :=
  c4_rating_values.1 (ratedStream 11) rated11Record
    ((show parseLetterboxdHtml (ratedStream 11) = [rated11Record] from rfl) ▸
      List.mem_singleton_self rated11Record)
    (((11 : ℕ) : ℚ) / 2) rfl

/-- C5 (amended): while the review-body cursor is set, every nonempty
stripped chunk extends the accumulator review with a single space
separator in document order; every emitted record is the post-processed
accumulator, and post-processing maps the review through the two
translation-UI substitutions followed by a strip.  Watched-on stub
lines are not removed on this path. -/
theorem c5_review_pipeline :
    (∀ (s : ParserState) (text : String), s.in_review_body = true →
      ¬ pyStrip text = "" →
      ((handleData s text).current_activity).review =
        some (match s.current_activity.review with
              | none => pyStrip text
              | some r => r ++ " " ++ pyStrip text)) ∧
    (∀ events : List Event, parseLetterboxdHtml events =
      ((feed initState events).activities).map postprocessActivity) ∧
    (∀ a : ActivityRecord,
      (postprocessActivity a).review = a.review.map cleanReview) := by
  refine ⟨?_, parse_eq_map, fun a => (post_fields a).2.2.2.2.2⟩
  intro s text hbody hne
  unfold handleData
  rw [if_neg hne]
  have h1 : (dataTitleStep (pyStrip text) s).current_activity.review =
      s.current_activity.review := by
    unfold dataTitleStep
    repeat' split
    all_goals rfl
  have h2 : (dataTitleStep (pyStrip text) s).in_review_body =
      s.in_review_body := by
    unfold dataTitleStep
    repeat' split
    all_goals rfl
  unfold dataReviewStep
  rw [h2, if_pos hbody, h1]
  cases hcr : s.current_activity.review <;> simp [hcr]

/-- C5 counterexample: a bare watched-date stub line survives
extraction verbatim in the final review text; no stub stripping happens
on the markup path. -/
theorem c5_counterexample :
    (parseLetterboxdHtml watchedStubStream).map (fun r => r.review) =
      [some "Watched on Jan 01, 2024"] ∧
    pyStartsWith "Watched on Jan 01, 2024" "Watched on" = true := by
  constructor <;> decide

/-- C5 witness: the accumulation rule applied inside a review body with
an empty accumulator. -/
theorem c5_review_pipeline_witness :
    ((handleData reviewBodyState "Great movie").current_activity).review =
      some (match reviewBodyState.current_activity.review with
            | none => pyStrip "Great movie"
            | some r => r ++ " " ++ pyStrip "Great movie") :=
  c5_review_pipeline.1 reviewBodyState "Great movie" rfl (by decide)

/-- C6 (amended): closing the container tag appends a snapshot of the
accumulator exactly when it is nonempty and titled, clears the
accumulator, and resets the block and review-body cursors; the title
and rating cursors are left unchanged, refuting the claimed reset of
all four cursors. -/
theorem c6_section_close (events : List Event) :
    feed initState (events ++ [Event.endTag "section"]) =
      { activities := (feed initState events).activities ++
          (if ¬ (feed initState events).current_activity.isEmpty ∧
              (feed initState events).current_activity.title.isSome then
            [(feed initState events).current_activity] else []),
        current_activity := emptyActivity,
        in_review := false, in_review_body := false,
        in_title := (feed initState events).in_title,
        in_rating := (feed initState events).in_rating } := by
  have hfe : feed initState (events ++ [Event.endTag "section"]) =
      handleEndtag (feed initState events) "section" := by
    rw [feed, feed, List.foldl_append]
    rfl
  rw [hfe]
  generalize feed initState events = s
  unfold handleEndtag endSpanStep endTitleStep endSectionStep
  rw [if_neg (by decide : ¬ ("section" : String) = "span"),
      if_neg (by decide : ¬ ("section" : String) = "h2"),
      if_pos (rfl : ("section" : String) = "section")]
  unfold emitCurrent
  split
  next => rfl
  next => simp

/-- C6 counterexample: a block close that emitted a record leaves the
inside-title-heading cursor true. -/
theorem c6_counterexample :
    (feed initState unclosedTitleStream).activities.length = 1 ∧
    (feed initState unclosedTitleStream).in_title = true := by
  constructor <;> decide

/-- C7: every emitted record is the post-processed accumulator with its
datetime kept, and one record is emitted per accumulated activity, so a
timestamp parse failure neither drops the record nor surfaces an error;
when the datetime parses under the ISO model, date and date_short are
its two strftime renderings, and otherwise both stay absent. -/
theorem c7_date_fields (events : List Event) (r : ActivityRecord)
    (hr : r ∈ parseLetterboxdHtml events) :
    (parseLetterboxdHtml events).length =
      ((feed initState events).activities).length ∧
    (∀ sdt, r.datetime = some sdt →
      (∀ dt, fromISO (pyReplaceZ sdt) = some dt →
        r.date = some (fmtLong dt) ∧ r.date_short = some (fmtShort dt)) ∧
      (fromISO (pyReplaceZ sdt) = none →
        r.date = none ∧ r.date_short = none)) ∧
    (r.datetime = none → r.date = none ∧ r.date_short = none) := by
  have hok := feed_ok events initState initState_ok
  have hlen : (parseLetterboxdHtml events).length =
      ((feed initState events).activities).length := by
    rw [parse_eq_map, List.length_map]
  rw [parse_eq_map] at hr
  rcases List.mem_map.mp hr with ⟨a, ha, rfl⟩
  have hrec : recOk a := (hok.1 a ha).1
  have hd := post_date a hrec
  have hdt := (post_fields a).2.2.2.2.1
  refine ⟨hlen, ?_, ?_⟩
  · intro sdt hsdt
    have hadt : a.datetime = some sdt := by rw [← hdt]; exact hsdt
    rw [hadt] at hd
    dsimp only at hd
    constructor
    · intro dt hdtiso
      rw [hdtiso] at hd
      exact ⟨congrArg Prod.fst hd, congrArg Prod.snd hd⟩
    · intro hnone
      rw [hnone] at hd
      exact ⟨congrArg Prod.fst hd, congrArg Prod.snd hd⟩
  · intro hnone
    have hadt : a.datetime = none := by rw [← hdt]; exact hnone
    rw [hadt] at hd
    dsimp only at hd
    exact ⟨congrArg Prod.fst hd, congrArg Prod.snd hd⟩

/-- C7 witness: the date relation applied to the dated-stream record,
whose timestamp parses to December 25, 2024. -/
theorem c7_date_fields_witness :
    datedRecord.date = some (fmtLong { year := 2024, month := 12, day := 25 }) ∧
    datedRecord.date_short =
      some (fmtShort { year := 2024, month := 12, day := 25 }) :=
  ((c7_date_fields datedStream datedRecord (by decide)).2.1
    "2024-12-25T10:00:00" rfl).1 { year := 2024, month := 12, day := 25 }
    (by decide)

/-- C8: extraction is deterministic: the embedded
parse_letterboxd_html is a pure function of the event stream alone (a
fresh parser per call, no clock and no cross-run state), so identical
inputs give identical output lists. -/
theorem c8_deterministic (e1 e2 : List Event) (h : e1 = e2) :
    parseLetterboxdHtml e1 = parseLetterboxdHtml e2 := by rw [h]

/-- C8 witness: determinism applied to two runs on the dated stream. -/
theorem c8_deterministic_witness :
    parseLetterboxdHtml datedStream = parseLetterboxdHtml datedStream :=
  c8_deterministic datedStream datedStream rfl

/-- C9: a time tag with a datetime attribute always overwrites the
accumulator datetime, so with several such tags the last in document
order wins, while a present title is never overwritten, so the first
captured chunk wins; the two-timestamp block shows both at once. -/
theorem c9_last_datetime_first_title :
    (∀ (s : ParserState) (d : String),
      ((handleStarttag s "time" [("datetime", d)]).current_activity).datetime
        = some d) ∧
    (∀ (s : ParserState) (text : String),
      s.current_activity.title.isSome = true →
      ((handleData s text).current_activity).title =
        s.current_activity.title) ∧
    (feed initState twoTimesStream).activities.map
        (fun r => (r.title, r.datetime)) =
      [(some "First", some "2024-02-02T00:00:00")] := by
  refine ⟨?_, ?_, by decide⟩
  · intro s d
    unfold handleStarttag stepFilmLink stepTime stepReviewBody stepRating
      stepYear stepTitleOpen stepSection
    simp [dictGet]
  · intro s text ht
    unfold handleData
    split
    · rfl
    · have h1 : (dataTitleStep (pyStrip text) s).current_activity.title =
          s.current_activity.title := by
        unfold dataTitleStep
        split
        · split
          next hnone => rw [hnone] at ht; simp at ht
          next => rfl
        · rfl
      have h2 : ((dataReviewStep (pyStrip text)
            (dataTitleStep (pyStrip text) s)).current_activity).title =
          (dataTitleStep (pyStrip text) s).current_activity.title := by
        unfold dataReviewStep
        repeat' split
        all_goals rfl
      rw [h2, h1]

/-- C9 witness: a further data chunk does not overwrite a present
title. -/
theorem c9_last_datetime_first_title_witness :
    ((handleData titledState "Second").current_activity).title =
      titledState.current_activity.title :=
  c9_last_datetime_first_title.2.1 titledState "Second" rfl

/-- C10: the extractor tracks no nesting depth: any close of the
container tag resets the block cursor and clears the accumulator, and
in the nested-container stream the timestamp appearing after the inner
close is absent from the emitted outer record. -/
theorem c10_no_nesting_depth :
    (∀ s : ParserState, (handleEndtag s "section").in_review = false ∧
      (handleEndtag s "section").current_activity = emptyActivity) ∧
    parseLetterboxdHtml nestedSectionStream =
      [{ emptyActivity with title := some "Outer" }] := by
  refine ⟨?_, by decide⟩
  intro s
  unfold handleEndtag endSpanStep endTitleStep endSectionStep
  rw [if_neg (by decide : ¬ ("section" : String) = "span"),
      if_neg (by decide : ¬ ("section" : String) = "h2"),
      if_pos (rfl : ("section" : String) = "section")]
  exact ⟨rfl, rfl⟩
